import Mathlib

/-!
Shallow embedding of the game-engine core of the build-an-atom repository:
the per-challenge answer-evaluation logic (ToElementChallenge.checkAnswer,
CountsToSymbolChallengeView.checkAnswer), the challenge-state enumeration
(BAAChallengeState), the level-completed branch of BAAGameScreenView, and
the first-tab model (BuildAnAtomModel.setAtomConfiguration and the derived
nucleus-stability value).
-/

namespace BuildAnAtom

/-- NumberAtom value: proton, neutron and electron counts.  The counts are
integers because the symbol-entry conversion in
CountsToSymbolChallengeView.checkAnswer can produce negative intermediate
counts (massNumber - protonCount, protonCount - charge). -/
structure NumberAtom where
  protonCount : Int
  neutronCount : Int
  electronCount : Int
deriving DecidableEq, Repr

/-- Derived charge of a NumberAtom: protons minus electrons
(chargeProperty in SHRED's NumberAtom). -/
def NumberAtom.charge (a : NumberAtom) : Int :=
  a.protonCount - a.electronCount

/-- Derived mass number of a NumberAtom: protons plus neutrons
(massNumberProperty in SHRED's NumberAtom). -/
def NumberAtom.massNumber (a : NumberAtom) : Int :=
  a.protonCount + a.neutronCount

/-- The boolean computed by ToElementChallenge.checkAnswer
(src/unnamed/part_000, lines 47-50): proton counts match, neutron counts
match, and the submitted neutral/ion string agrees with the answer atom's
charge being zero or nonzero. -/
def toElementIsCorrect (answerAtom submittedAtom : NumberAtom)
    (submittedNeutralOrIon : String) : Bool :=
  submittedAtom.protonCount == answerAtom.protonCount &&
  submittedAtom.neutronCount == answerAtom.neutronCount &&
  ( ( submittedNeutralOrIon == "neutral" && answerAtom.charge == 0 ) ||
    ( submittedNeutralOrIon == "ion" && answerAtom.charge != 0 ) )

/-- The detail record passed to handleEvaluatedAnswer by
ToElementChallenge.checkAnswer (src/unnamed/part_000, lines 51-54). -/
structure ToElementDetail where
  correctCharge : String
  submittedCharge : String
deriving DecidableEq, Repr

/-- The detail value built by ToElementChallenge.checkAnswer:
correctCharge is "neutral" when the answer atom's charge is 0 and "ion"
otherwise; submittedCharge is the player's declared string. -/
def toElementAnswerDetail (answerAtom : NumberAtom)
    (submittedNeutralOrIon : String) : ToElementDetail :=
  { correctCharge := if answerAtom.charge == 0 then "neutral" else "ion"
    submittedCharge := submittedNeutralOrIon }

/-- The challenge-state enumeration of
src/js/game/model/BAAChallengeState.js (lines 14-20). -/
inductive BAAChallengeState where
  | PRESENTING_CHALLENGE
  | CHALLENGE_SOLVED_CORRECTLY
  | PRESENTING_TRY_AGAIN
  | ATTEMPTS_EXHAUSTED
  | DISPLAYING_CORRECT_ANSWER
deriving DecidableEq, BEq, Repr

/-- The string value each member of the BAAChallengeState enumeration
carries in src/js/game/model/BAAChallengeState.js. -/
def stateValue : BAAChallengeState → String
  | .PRESENTING_CHALLENGE => "presentingChallenge"
  | .CHALLENGE_SOLVED_CORRECTLY => "challengeSolvedCorrectly"
  | .PRESENTING_TRY_AGAIN => "presentingTryAgain"
  | .ATTEMPTS_EXHAUSTED => "attemptsExhausted"
  | .DISPLAYING_CORRECT_ANSWER => "displayingCorrectAnswer"

/-- Modelled from the spec: the initial state of a newly generated
challenge is PRESENTING_CHALLENGE ("PRESENTING_CHALLENGE (initial)",
spec section 3); the assignment itself happens in the BAAGameChallenge
base class, which is not among the provided source files. -/
def initialChallengeState : BAAChallengeState :=
  BAAChallengeState.PRESENTING_CHALLENGE

/-- The precondition asserted at the top of ToElementChallenge.checkAnswer
(src/unnamed/part_000, lines 43-46): the challenge state must be
PRESENTING_CHALLENGE, otherwise the assertion fires. -/
def toElementCheckAnswerPrecondition (state : BAAChallengeState) : Bool :=
  state == BAAChallengeState.PRESENTING_CHALLENGE

/-- Modelled from the spec: the three-way comparison of
BAAGameChallenge.checkAnswer, whose source file is not among the provided
files — "correct iff all three of protonCount, neutronCount,
electronCount match exactly between submitted and answer" (spec 4.1). -/
def baaChallengeIsCorrect (answerAtom submittedAtom : NumberAtom) : Bool :=
  submittedAtom.protonCount == answerAtom.protonCount &&
  submittedAtom.neutronCount == answerAtom.neutronCount &&
  submittedAtom.electronCount == answerAtom.electronCount

/-- The NumberAtom constructed by CountsToSymbolChallengeView.checkAnswer
(src/js/game/view/CountsToSymbolChallengeView.js, lines 68-72) from the
interactive symbol's proton count, mass number and charge. -/
def countsToSymbolSubmittedAtom (protonCount massNumber charge : Int) :
    NumberAtom :=
  { protonCount := protonCount
    neutronCount := massNumber - protonCount
    electronCount := protonCount - charge }

/-- CountsToSymbolChallengeView.checkAnswer: convert the submitted
(protonCount, massNumber, charge) triple to a NumberAtom and hand it to
the challenge's three-way comparison. -/
def countsToSymbolCheckAnswer (answerAtom : NumberAtom)
    (protonCount massNumber charge : Int) : Bool :=
  baaChallengeIsCorrect answerAtom
    (countsToSymbolSubmittedAtom protonCount massNumber charge)

/-- Modelled from the spec: the element-identification rule used by the
challenge types whose checkAnswer is not among the provided source files —
"correct iff submitted.protonCount == answer.protonCount" (spec 4.1). -/
def elementIdIsCorrect (answerAtom submittedAtom : NumberAtom) : Bool :=
  submittedAtom.protonCount == answerAtom.protonCount

/-- The neutral/ion classification of an atom, as computed for the
correctCharge field in ToElementChallenge.checkAnswer
(src/unnamed/part_000, line 52). -/
def neutralOrIonOf (a : NumberAtom) : String :=
  if a.charge == 0 then "neutral" else "ion"

/-- Outcome of the LEVEL_COMPLETED branch of BAAGameScreenView
(src/js/game/view/BAAGameScreenView.js, lines 104-117): perfect means the
reward node is added and the perfect-score audio is played. -/
inductive LevelCompletionOutcome where
  | perfect
  | normal
deriving DecidableEq, Repr

/-- Modelled from the spec: BAAGameModel.MAX_POINTS_PER_GAME_LEVEL —
the theoretical maximum for a level is CHALLENGES_PER_LEVEL multiplied by
POINTS_FOR_FIRST_ATTEMPT (spec 4.4); the constants live in BAAGameModel,
which is not among the provided source files, so both factors are kept
as parameters. -/
def maxPointsPerGameLevel (challengesPerLevel pointsForFirstAttempt : Nat) :
    Nat :=
  challengesPerLevel * pointsForFirstAttempt

/-- The decision made in the LEVEL_COMPLETED branch of BAAGameScreenView
(src/js/game/view/BAAGameScreenView.js, line 106): the celebratory
perfect-score outcome is chosen when the score equals
MAX_POINTS_PER_GAME_LEVEL or the reward query parameter is set. -/
def levelCompletedOutcome (rewardQueryParameter : Bool)
    (score maxPoints : Nat) : LevelCompletionOutcome :=
  if score == maxPoints || rewardQueryParameter then
    LevelCompletionOutcome.perfect
  else
    LevelCompletionOutcome.normal

/-- Number of protons in the first-tab model's inventory
(src/js/common/model/BuildAnAtomModel.js, line 38). -/
def NUM_PROTONS : Nat := 10

/-- Number of neutrons in the first-tab model's inventory
(src/js/common/model/BuildAnAtomModel.js, line 39). -/
def NUM_NEUTRONS : Nat := 13

/-- Number of electrons in the first-tab model's inventory
(src/js/common/model/BuildAnAtomModel.js, line 40). -/
def NUM_ELECTRONS : Nat := 10

/-- The first while loop of moveParticlesToAtom inside
BuildAnAtomModel.setAtomConfiguration (lines 357-362): while the count in
the atom is below the target, extract one particle from the bucket and
add it to the atom.  Extracting from an empty bucket fails (the source
would dereference null), hence the Option result. -/
def extractParticlesFromBucket :
    Nat → Nat → Nat → Option (Nat × Nat)
  | atomCount, _bucketCount, 0 => some (atomCount, _bucketCount)
  | atomCount, bucketCount + 1, needed + 1 =>
      extractParticlesFromBucket (atomCount + 1) bucketCount needed
  | _, 0, _ + 1 => none

/-- The second while loop of moveParticlesToAtom inside
BuildAnAtomModel.setAtomConfiguration (lines 363-366): each iteration
calls _moveParticlesFromAtomToBucket (lines 293-305), which moves EVERY
particle of the collection from the atom back to the bucket, and then
decrements the local loop counter by one. -/
def clearAtomRepeatedly : Nat → Nat → Nat → Nat × Nat
  | atomCount, bucketCount, 0 => (atomCount, bucketCount)
  | atomCount, bucketCount, n + 1 =>
      clearAtomRepeatedly 0 (bucketCount + atomCount) n

/-- The per-particle-kind transfer function moveParticlesToAtom of
BuildAnAtomModel.setAtomConfiguration (lines 356-367), acting on the
count of that kind in the atom and in its bucket. -/
def moveParticlesToAtom (atomCount bucketCount targetCount : Nat) :
    Option (Nat × Nat) :=
  if atomCount < targetCount then
    extractParticlesFromBucket atomCount bucketCount (targetCount - atomCount)
  else
    some (clearAtomRepeatedly atomCount bucketCount (atomCount - targetCount))

/-- The per-kind particle counts of the first-tab model: how many
particles of each kind sit in the atom and in each bucket. -/
structure BuildAnAtomModelState where
  atomProtonCount : Nat
  atomNeutronCount : Nat
  atomElectronCount : Nat
  protonBucketCount : Nat
  neutronBucketCount : Nat
  electronBucketCount : Nat
deriving DecidableEq, Repr

/-- Target configuration handed to setAtomConfiguration, i.e. the counts
of a NumberAtom (non-negative integers per the data model). -/
structure NumberAtomCounts where
  protonCount : Nat
  neutronCount : Nat
  electronCount : Nat
deriving DecidableEq, Repr

/-- BuildAnAtomModel.setAtomConfiguration (lines 351-390): apply
moveParticlesToAtom to the protons, the neutrons and then the electrons. -/
def setAtomConfiguration (s : BuildAnAtomModelState)
    (numberAtom : NumberAtomCounts) : Option BuildAnAtomModelState := do
  let (ap, bp) ← moveParticlesToAtom
    s.atomProtonCount s.protonBucketCount numberAtom.protonCount
  let (an, bn) ← moveParticlesToAtom
    s.atomNeutronCount s.neutronBucketCount numberAtom.neutronCount
  let (ae, eb) ← moveParticlesToAtom
    s.atomElectronCount s.electronBucketCount numberAtom.electronCount
  pure ⟨ap, an, ae, bp, bn, eb⟩

/-- The derived nucleus-stability value of BuildAnAtomModel
(src/js/common/model/BuildAnAtomModel.js, lines 195-205), parametric in
AtomIdentifier.isStable, which lives in the external SHRED library. -/
def nucleusStable (isStable : Nat → Nat → Bool)
    (protonCount neutronCount : Nat) : Bool :=
  if protonCount + neutronCount > 0 then
    isStable protonCount neutronCount
  else
    true

end BuildAnAtom

namespace BuildAnAtom

/-- C1: for a declared classification ("neutral" or "ion"),
ToElementChallenge.checkAnswer computes isCorrect = true iff the proton
counts match, the neutron counts match, and the declared classification
matches the sign of the answer atom's charge ("neutral" iff charge 0,
"ion" iff charge nonzero). -/
theorem toElement_isCorrect_iff (answerAtom submittedAtom : NumberAtom)
    (s : String) (hs : s = "neutral" ∨ s = "ion") :
    toElementIsCorrect answerAtom submittedAtom s = true ↔
      ( submittedAtom.protonCount = answerAtom.protonCount ∧
        submittedAtom.neutronCount = answerAtom.neutronCount ∧
        ( ( s = "neutral" ∧ answerAtom.charge = 0 ) ∨
          ( s = "ion" ∧ answerAtom.charge ≠ 0 ) ) ) := by
  rcases hs with h | h <;> subst h <;>
    simp [toElementIsCorrect, and_assoc]

/-- Witness for C1 at a concrete input: carbon answer atom, matching
submission declared "neutral". -/
theorem toElement_isCorrect_iff_witness :
    toElementIsCorrect ⟨6, 6, 6⟩ ⟨6, 6, 6⟩ "neutral" = true :=
  (toElement_isCorrect_iff ⟨6, 6, 6⟩ ⟨6, 6, 6⟩ "neutral" (Or.inl rfl)).mpr
    (by refine ⟨rfl, rfl, Or.inl ⟨rfl, ?_⟩⟩; decide)

/-- C2 counterexample: a challenge whose answer atom is neutral hydrogen
and whose submitted atom matches both counts.  Declaring "ion" (a
charge-sign mismatch) yields isCorrect = false while declaring the
matching classification "neutral" yields isCorrect = true, so the
charge-sign mismatch does change the pass/fail boolean. -/
theorem toElement_chargeMismatch_changes_isCorrect :
    toElementIsCorrect ⟨1, 0, 1⟩ ⟨1, 0, 1⟩ "ion" = false ∧
    toElementIsCorrect ⟨1, 0, 1⟩ ⟨1, 0, 1⟩ "neutral" = true ∧
    toElementIsCorrect ⟨1, 0, 1⟩ ⟨1, 0, 1⟩ "ion" ≠
      toElementIsCorrect ⟨1, 0, 1⟩ ⟨1, 0, 1⟩ "neutral" := by
  decide

/-- C2 amended: when the submitted counts both match the answer atom but
the declared classification does not match the sign of the answer's
charge, isCorrect = false (the mismatch is part of the pass/fail
boolean), the matching classification would have given isCorrect = true,
and the reported detail distinguishes the failure: its correctCharge and
submittedCharge fields differ. -/
theorem toElement_chargeMismatch_reported (answerAtom submittedAtom : NumberAtom)
    (s : String) (hs : s = "neutral" ∨ s = "ion")
    (hp : submittedAtom.protonCount = answerAtom.protonCount)
    (hn : submittedAtom.neutronCount = answerAtom.neutronCount)
    (hmismatch : ¬ ( ( s = "neutral" ∧ answerAtom.charge = 0 ) ∨
                     ( s = "ion" ∧ answerAtom.charge ≠ 0 ) )) :
    toElementIsCorrect answerAtom submittedAtom s = false ∧
    toElementIsCorrect answerAtom submittedAtom (neutralOrIonOf answerAtom) = true ∧
    (toElementAnswerDetail answerAtom s).correctCharge ≠
      (toElementAnswerDetail answerAtom s).submittedCharge := by
  have hch : answerAtom.charge = 0 ∨ answerAtom.charge ≠ 0 := by
    by_cases h0 : answerAtom.charge = 0
    · exact Or.inl h0
    · exact Or.inr h0
  rcases hs with h | h <;> subst h <;> rcases hch with h0 | h0 <;>
    simp_all [toElementIsCorrect, toElementAnswerDetail, neutralOrIonOf]

/-- Witness for C2 amended: answer atom is a +2 beryllium ion, submitted
counts match, declared "neutral". -/
theorem toElement_chargeMismatch_reported_witness :
    toElementIsCorrect ⟨4, 5, 2⟩ ⟨4, 5, 4⟩ "neutral" = false ∧
    toElementIsCorrect ⟨4, 5, 2⟩ ⟨4, 5, 4⟩ (neutralOrIonOf ⟨4, 5, 2⟩) = true ∧
    (toElementAnswerDetail ⟨4, 5, 2⟩ "neutral").correctCharge ≠
      (toElementAnswerDetail ⟨4, 5, 2⟩ "neutral").submittedCharge :=
  toElement_chargeMismatch_reported ⟨4, 5, 2⟩ ⟨4, 5, 4⟩ "neutral"
    (Or.inl rfl) rfl rfl (by decide)

/-- C3: for a to-element challenge whose answer atom has charge +2,
submitting an atom with the correct proton and neutron counts while
declaring "neutral" yields isCorrect = false, and the reported detail
has correctCharge = "ion" and submittedCharge = "neutral". -/
theorem toElement_plusTwoIon_declaredNeutral (answerAtom submittedAtom : NumberAtom)
    (hcharge : answerAtom.charge = 2)
    (hp : submittedAtom.protonCount = answerAtom.protonCount)
    (hn : submittedAtom.neutronCount = answerAtom.neutronCount) :
    toElementIsCorrect answerAtom submittedAtom "neutral" = false ∧
    toElementAnswerDetail answerAtom "neutral" =
      { correctCharge := "ion", submittedCharge := "neutral" } := by
  constructor
  · simp [toElementIsCorrect, hcharge]
  · simp [toElementAnswerDetail, hcharge]

/-- Witness for C3: answer atom is a +2 beryllium ion, submission has
the correct proton and neutron counts but is declared "neutral". -/
theorem toElement_plusTwoIon_declaredNeutral_witness :
    toElementIsCorrect ⟨4, 5, 2⟩ ⟨4, 5, 4⟩ "neutral" = false ∧
    toElementAnswerDetail ⟨4, 5, 2⟩ "neutral" =
      { correctCharge := "ion", submittedCharge := "neutral" } :=
  toElement_plusTwoIon_declaredNeutral ⟨4, 5, 2⟩ ⟨4, 5, 4⟩ (by decide) rfl rfl

/-- C4: CountsToSymbolChallengeView.checkAnswer converts the submitted
(protonCount p, massNumber m, charge c) triple to the NumberAtom with
protonCount p, neutronCount m - p and electronCount p - c, and returns
isCorrect = true iff all three counts of that converted atom equal the
answer atom's counts exactly. -/
theorem countsToSymbol_checkAnswer_iff (answerAtom : NumberAtom)
    (p m c : Int) :
    countsToSymbolSubmittedAtom p m c =
      { protonCount := p, neutronCount := m - p, electronCount := p - c } ∧
    ( countsToSymbolCheckAnswer answerAtom p m c = true ↔
        ( p = answerAtom.protonCount ∧
          m - p = answerAtom.neutronCount ∧
          p - c = answerAtom.electronCount ) ) := by
  refine ⟨rfl, ?_⟩
  simp [countsToSymbolCheckAnswer, baaChallengeIsCorrect,
    countsToSymbolSubmittedAtom, and_assoc]

/-- Witness for C4: lithium-7 answer with one electron removed,
submitted as proton count 3, mass number 7, charge +1. -/
theorem countsToSymbol_checkAnswer_iff_witness :
    countsToSymbolSubmittedAtom 3 7 1 =
      { protonCount := 3, neutronCount := 7 - 3, electronCount := 3 - 1 } ∧
    ( countsToSymbolCheckAnswer ⟨3, 4, 2⟩ 3 7 1 = true ↔
        ( (3 : Int) = 3 ∧ (7 : Int) - 3 = 4 ∧ (3 : Int) - 1 = 2 ) ) :=
  countsToSymbol_checkAnswer_iff ⟨3, 4, 2⟩ 3 7 1

/-- C5 round-trip: submitting the challenge's own answer atom through
each input shape yields isCorrect = true — the to-element shape (the
atom plus its own neutral/ion classification), the symbol shape (the
atom's proton count, mass number and charge), the plain three-way count
comparison, and the element-identification rule. -/
theorem roundTrip_isCorrect (answerAtom : NumberAtom) :
    toElementIsCorrect answerAtom answerAtom (neutralOrIonOf answerAtom) = true ∧
    countsToSymbolCheckAnswer answerAtom
      answerAtom.protonCount answerAtom.massNumber answerAtom.charge = true ∧
    baaChallengeIsCorrect answerAtom answerAtom = true ∧
    elementIdIsCorrect answerAtom answerAtom = true := by
  refine ⟨?_, ?_, ?_, ?_⟩
  · by_cases h : answerAtom.charge = 0 <;>
      simp [toElementIsCorrect, neutralOrIonOf, h]
  · simp [countsToSymbolCheckAnswer, baaChallengeIsCorrect,
      countsToSymbolSubmittedAtom, NumberAtom.massNumber, NumberAtom.charge]
  · simp [baaChallengeIsCorrect]
  · simp [elementIdIsCorrect]

/-- Witness for C5: the round trip evaluated on a lithium ion with one
electron missing. -/
theorem roundTrip_isCorrect_witness :
    toElementIsCorrect ⟨3, 4, 2⟩ ⟨3, 4, 2⟩ (neutralOrIonOf ⟨3, 4, 2⟩) = true ∧
    countsToSymbolCheckAnswer ⟨3, 4, 2⟩
      (NumberAtom.protonCount ⟨3, 4, 2⟩)
      (NumberAtom.massNumber ⟨3, 4, 2⟩)
      (NumberAtom.charge ⟨3, 4, 2⟩) = true ∧
    baaChallengeIsCorrect ⟨3, 4, 2⟩ ⟨3, 4, 2⟩ = true ∧
    elementIdIsCorrect ⟨3, 4, 2⟩ ⟨3, 4, 2⟩ = true :=
  roundTrip_isCorrect ⟨3, 4, 2⟩

/-- C6 counterexample: with the reward query parameter set, a completed
level with score 0 still produces the celebratory perfect-score outcome
even though 0 is not the theoretical maximum 5 * 2. -/
theorem levelCompleted_rewardFlag_counterexample :
    levelCompletedOutcome true 0 (maxPointsPerGameLevel 5 2) =
      LevelCompletionOutcome.perfect ∧
    (0 : Nat) ≠ maxPointsPerGameLevel 5 2 := by
  decide

/-- C6 amended: with the reward query parameter unset (the default), the
celebratory perfect-score outcome is produced iff the final score equals
the theoretical maximum CHALLENGES_PER_LEVEL * POINTS_FOR_FIRST_ATTEMPT;
with the flag set, every completed level produces it. -/
theorem levelCompleted_perfect_iff
    (score challengesPerLevel pointsForFirstAttempt : Nat) :
    ( levelCompletedOutcome false score
        (maxPointsPerGameLevel challengesPerLevel pointsForFirstAttempt) =
        LevelCompletionOutcome.perfect ↔
      score = maxPointsPerGameLevel challengesPerLevel pointsForFirstAttempt ) ∧
    levelCompletedOutcome true score
      (maxPointsPerGameLevel challengesPerLevel pointsForFirstAttempt) =
      LevelCompletionOutcome.perfect := by
  constructor
  · by_cases h :
      score = maxPointsPerGameLevel challengesPerLevel pointsForFirstAttempt <;>
      simp [levelCompletedOutcome, h]
  · simp [levelCompletedOutcome]

/-- Witness for C6 amended: score 10 against 5 challenges worth 2 points
each. -/
theorem levelCompleted_perfect_iff_witness :
    ( levelCompletedOutcome false 10 (maxPointsPerGameLevel 5 2) =
        LevelCompletionOutcome.perfect ↔
      10 = maxPointsPerGameLevel 5 2 ) ∧
    levelCompletedOutcome true 10 (maxPointsPerGameLevel 5 2) =
      LevelCompletionOutcome.perfect :=
  levelCompleted_perfect_iff 10 5 2

/-- C7 counterexample: the precondition asserted by
ToElementChallenge.checkAnswer does not hold in PRESENTING_TRY_AGAIN —
the assertion fires there, so a submit from that state is not accepted,
contrary to the claim. -/
theorem tryAgain_submit_assert_fires :
    toElementCheckAnswerPrecondition BAAChallengeState.PRESENTING_TRY_AGAIN =
      false := by
  decide

/-- C7 amended: ToElementChallenge.checkAnswer's precondition assertion
accepts exactly the state PRESENTING_CHALLENGE; it fires in
PRESENTING_TRY_AGAIN and in every other state, terminal or not. -/
theorem checkAnswer_precondition_iff (s : BAAChallengeState) :
    toElementCheckAnswerPrecondition s = true ↔
      s = BAAChallengeState.PRESENTING_CHALLENGE := by
  cases s <;> simp [toElementCheckAnswerPrecondition] <;> decide

/-- Witness for C7 amended: the precondition holds in
PRESENTING_CHALLENGE. -/
theorem checkAnswer_precondition_iff_witness :
    toElementCheckAnswerPrecondition BAAChallengeState.PRESENTING_CHALLENGE =
      true :=
  (checkAnswer_precondition_iff BAAChallengeState.PRESENTING_CHALLENGE).mpr rfl

/-- C8: the challenge-state enumeration is exhaustive — every state is
one of the five listed members, the five carry pairwise distinct string
values, and the initial state is PRESENTING_CHALLENGE. -/
theorem challengeStates_exhaustive :
    ( ∀ s : BAAChallengeState,
        s = BAAChallengeState.PRESENTING_CHALLENGE ∨
        s = BAAChallengeState.CHALLENGE_SOLVED_CORRECTLY ∨
        s = BAAChallengeState.PRESENTING_TRY_AGAIN ∨
        s = BAAChallengeState.ATTEMPTS_EXHAUSTED ∨
        s = BAAChallengeState.DISPLAYING_CORRECT_ANSWER ) ∧
    ( ∀ s t : BAAChallengeState, stateValue s = stateValue t → s = t ) ∧
    initialChallengeState = BAAChallengeState.PRESENTING_CHALLENGE := by
  refine ⟨?_, ?_, rfl⟩
  · intro s
    cases s <;> simp
  · intro s t h
    cases s <;> cases t <;> first | rfl | simp [stateValue] at h

/-- Witness for C8: the exhaustiveness disjunction evaluated at
ATTEMPTS_EXHAUSTED. -/
theorem challengeStates_exhaustive_witness :
    BAAChallengeState.ATTEMPTS_EXHAUSTED =
        BAAChallengeState.PRESENTING_CHALLENGE ∨
    BAAChallengeState.ATTEMPTS_EXHAUSTED =
        BAAChallengeState.CHALLENGE_SOLVED_CORRECTLY ∨
    BAAChallengeState.ATTEMPTS_EXHAUSTED =
        BAAChallengeState.PRESENTING_TRY_AGAIN ∨
    BAAChallengeState.ATTEMPTS_EXHAUSTED =
        BAAChallengeState.ATTEMPTS_EXHAUSTED ∨
    BAAChallengeState.ATTEMPTS_EXHAUSTED =
        BAAChallengeState.DISPLAYING_CORRECT_ANSWER :=
  challengeStates_exhaustive.1 BAAChallengeState.ATTEMPTS_EXHAUSTED

/-- C9: evaluating setAtomConfiguration at a state with 2 protons in the
atom (8 in the bucket, full neutron and electron buckets) and a target
of 1 proton — the decreasing branch moves every proton back to the
bucket, leaving 0 protons in the atom instead of the requested 1. -/
theorem setAtomConfiguration_decrease_bug :
    setAtomConfiguration ⟨2, 0, 0, 8, 13, 10⟩ ⟨1, 0, 0⟩ =
      some ⟨0, 0, 0, 10, 13, 10⟩ ∧
    NumberAtomCounts.protonCount ⟨1, 0, 0⟩ ≠ 0 := by
  decide

/-- C10: the derived nucleus-stability value equals
AtomIdentifier.isStable on the current counts whenever the nucleus is
non-empty, and is true for the empty nucleus, whatever predicate the
external AtomIdentifier library provides. -/
theorem nucleusStable_spec (isStable : Nat → Nat → Bool)
    (protonCount neutronCount : Nat) :
    ( protonCount + neutronCount > 0 →
        nucleusStable isStable protonCount neutronCount =
          isStable protonCount neutronCount ) ∧
    ( protonCount + neutronCount = 0 →
        nucleusStable isStable protonCount neutronCount = true ) := by
  constructor <;> intro h <;> simp [nucleusStable, h]

/-- Witness for C10: a predicate that is always false, evaluated on a
lone proton and on the empty nucleus. -/
theorem nucleusStable_spec_witness :
    nucleusStable (fun _ _ => false) 1 0 = false ∧
    nucleusStable (fun _ _ => false) 0 0 = true :=
  ⟨(nucleusStable_spec (fun _ _ => false) 1 0).1 (by decide),
   (nucleusStable_spec (fun _ _ => false) 0 0).2 rfl⟩

end BuildAnAtom
